import Mathlib

/-!
Shallow embedding of the QuantLLM analysis pipeline (TypeScript sources:
src/utils/technical.ts, the Indicator/Pattern/Trend/Risk agents and
src/orchestrator.ts).

JavaScript numbers are modelled as `Option ℚ` where `none` stands for the
NaN sentinel and `some q` for an ordinary (exact) numeric value; every
comparison against `none` evaluates to `false`, matching the semantics of
comparisons against NaN.  Quantities that the source can never turn into
NaN are modelled directly as `ℚ`.
-/

/-- Market regime labels, from `IndicatorOut.regime` in src/types.ts. -/
inductive Regime where
  | Bullish
  | Bearish
  | Neutral
deriving DecidableEq, Repr

/-- Candlestick pattern labels, from `PatternOut.pattern` in src/types.ts. -/
inductive Pattern where
  | BullishEngulfing
  | BearishEngulfing
  | Doji
  | None
deriving DecidableEq, Repr

/-- Trend labels, from `TrendOut.trend` in src/types.ts. -/
inductive Trend where
  | Uptrend
  | Downtrend
  | Sideways
deriving DecidableEq, Repr

/-- OHLCV price bar (`Candle` in src/types.ts); `time` is epoch seconds. -/
structure Candle where
  time : Int
  «open» : ℚ
  high : ℚ
  low : ℚ
  close : ℚ
  volume : Option ℚ := none
deriving DecidableEq, Repr

/-- Output of the Indicator (Regime) agent, `IndicatorOut` in src/types.ts.
`rsi` and `confidence` may be NaN (here `none`) on short input. -/
structure IndicatorOut where
  rsi : Option ℚ
  regime : Regime
  overbought : Bool
  oversold : Bool
  confidence : Option ℚ
deriving DecidableEq, Repr

/-- Output of the Pattern agent, `PatternOut` in src/types.ts.  The agent
always produces an ordinary number for `strength`, so plain `ℚ` is used. -/
structure PatternOut where
  pattern : Pattern
  strength : ℚ
deriving DecidableEq, Repr

/-- Output of the Trend agent, `TrendOut` in src/types.ts.  The EMAs and the
strength are NaN (`none`) when the candle list is empty. -/
structure TrendOut where
  trend : Trend
  emaFast : Option ℚ
  emaSlow : Option ℚ
  slope : ℚ
  strength : Option ℚ
deriving DecidableEq, Repr

/-- Output of the Risk agent, `RiskOut` in src/types.ts. -/
structure RiskOut where
  rho : ℚ
  rMultiplier : ℚ
  takeProfit : ℚ
  commentary : String
deriving DecidableEq, Repr

/-- The mutable accumulator threaded through the pipeline
(`AgentContext` in src/types.ts). -/
structure AgentContext where
  candles : List Candle
  indicator : Option IndicatorOut := none
  pattern : Option PatternOut := none
  trend : Option TrendOut := none
  risk : Option RiskOut := none
deriving DecidableEq, Repr

/-- A context holding only candles, as built at the start of `runPipeline`. -/
def mkCtx (cs : List Candle) : AgentContext := { candles := cs }

/-- JS comparison `x >= c` where `x` may be NaN: false on NaN. -/
def optGE (x : Option ℚ) (c : ℚ) : Bool :=
  match x with
  | some v => decide (c ≤ v)
  | none => false

/-- JS comparison `x <= c` where `x` may be NaN: false on NaN. -/
def optLE (x : Option ℚ) (c : ℚ) : Bool :=
  match x with
  | some v => decide (v ≤ c)
  | none => false

/-- JS comparison `x > c` where `x` may be NaN: false on NaN. -/
def optGT (x : Option ℚ) (c : ℚ) : Bool :=
  match x with
  | some v => decide (c < v)
  | none => false

/-- JS comparison `a > b * c` where `a`, `b` may be NaN: false if either is. -/
def optGTmul (a b : Option ℚ) (c : ℚ) : Bool :=
  match a, b with
  | some x, some y => decide (y * c < x)
  | _, _ => false

/-- JS comparison `a < b * c` where `a`, `b` may be NaN: false if either is. -/
def optLTmul (a b : Option ℚ) (c : ℚ) : Bool :=
  match a, b with
  | some x, some y => decide (x < y * c)
  | _, _ => false

/-- JS truthiness of a number that may be NaN: falsy iff 0, NaN (or absent). -/
def jsTruthy (x : Option ℚ) : Bool :=
  match x with
  | some v => decide (v ≠ 0)
  | none => false

/-- `ema(values, period)` from src/utils/technical.ts: seeded at `values[0]`,
smoothing factor `k = 2/(period+1)`, folded forward; NaN on empty input. -/
def ema (values : List ℚ) (period : ℚ) : Option ℚ :=
  match values with
  | [] => none
  | v :: rest =>
    let k := 2 / (period + 1)
    some (rest.foldl (fun e x => x * k + e * (1 - k)) v)

/-- `rsi(closes, period)` from src/utils/technical.ts.  The source loop over
`i ∈ [closes.length - period, closes.length)` accumulates the consecutive
deltas `closes[i] - closes[i-1]`, i.e. the deltas of the last `period + 1`
closes, here obtained by `drop` and `zipWith`. -/
def rsi (closes : List ℚ) (period : Nat := 14) : Option ℚ :=
  if closes.length < period + 1 then none
  else
    let window := closes.drop (closes.length - (period + 1))
    let changes := List.zipWith (fun b a => b - a) window.tail window
    let gains := (changes.map (fun c => if 0 ≤ c then c else 0)).sum
    let losses := (changes.map (fun c => if 0 ≤ c then 0 else -c)).sum
    let avgGain := gains / (period : ℚ)
    let avgLoss := losses / (period : ℚ)
    if avgLoss = 0 then some 100
    else some (100 - 100 / (1 + avgGain / avgLoss))

/-- `simpleSlope(series, lookback)` from src/utils/technical.ts. -/
def simpleSlope (series : List ℚ) (lookback : Nat := 10) : ℚ :=
  if series.length < lookback then 0
  else
    let seg := series.drop (series.length - lookback)
    (seg.getLastD 0 - seg.headD 0) / max (seg.headD 0) (1e-9 : ℚ)

/-- `IndicatorAgent` (Regime Stage): RSI(14), overbought/oversold flags,
regime label and confidence `min(1, |rsi-50|/30)`; `Option.map` reproduces
NaN propagation through `Math.abs`, subtraction, division and `Math.min`. -/
def IndicatorAgent (ctx : AgentContext) : IndicatorOut :=
  let closes := ctx.candles.map (fun c => c.close)
  let rsiVal := rsi closes 14
  let overbought := optGE rsiVal 70
  let oversold := optLE rsiVal 30
  let regime :=
    if optGE rsiVal 60 then Regime.Bullish
    else if optLE rsiVal 40 then Regime.Bearish
    else Regime.Neutral
  let confidence := rsiVal.map (fun r => min 1 (|r - 50| / 30))
  { rsi := rsiVal, regime := regime, overbought := overbought,
    oversold := oversold, confidence := confidence }

/-- `PatternAgent` (Pattern Stage): the source reads `cs[cs.length-2]` and
`cs[cs.length-1]` after a `cs.length < 2` guard, which is exactly matching
on the reversed candle list. -/
def PatternAgent (ctx : AgentContext) : PatternOut :=
  match ctx.candles.reverse with
  | lastC :: prevC :: _ =>
    let prevBody := |prevC.close - prevC.«open»|
    let lastBody := |lastC.close - lastC.«open»|
    if lastBody ≤ 0.001 * lastC.close then { pattern := Pattern.Doji, strength := 0.4 }
    else
      let engulfs :=
        min lastC.«open» lastC.close ≤ min prevC.«open» prevC.close ∧
        max prevC.«open» prevC.close ≤ max lastC.«open» lastC.close
      if lastC.«open» < lastC.close ∧ prevC.close < prevC.«open» ∧ engulfs then
        { pattern := Pattern.BullishEngulfing,
          strength := min 1 (lastBody / (prevBody + 1e-9)) }
      else if lastC.close < lastC.«open» ∧ prevC.«open» < prevC.close ∧ engulfs then
        { pattern := Pattern.BearishEngulfing,
          strength := min 1 (lastBody / (prevBody + 1e-9)) }
      else { pattern := Pattern.None, strength := 0 }
  | _ => { pattern := Pattern.None, strength := 0 }

/-- `TrendAgent` (Trend Stage): EMAs of periods 12 and 26 over the last
`max(26,12)` closes, slope over the full close history, 0.1% deadband
classification, strength `min(1, |(emaFast-emaSlow)/max(emaSlow,1e-9)|*10)`.
When the candle list is empty both EMAs are NaN, every comparison is false
(trend `Sideways`) and the strength is NaN (`none`). -/
def TrendAgent (ctx : AgentContext) : TrendOut :=
  let closes := ctx.candles.map (fun c => c.close)
  let dataSlice := closes.drop (closes.length - max 26 12)
  let emaFast := ema dataSlice 12
  let emaSlow := ema dataSlice 26
  let slopeVal := simpleSlope closes 12
  let trend :=
    if optGTmul emaFast emaSlow 1.001 then Trend.Uptrend
    else if optLTmul emaFast emaSlow 0.999 then Trend.Downtrend
    else Trend.Sideways
  let strength :=
    match emaFast, emaSlow with
    | some f, some s => some (min 1 (|(f - s) / max s (1e-9 : ℚ)| * 10))
    | _, _ => none
  { trend := trend, emaFast := emaFast, emaSlow := emaSlow,
    slope := slopeVal, strength := strength }

/-- `getHeuristicRiskMultiplier` from src/agents/RiskAgent.ts: base 1.5,
regime/trend/pattern biases, confidence and strength adjustments (both
guarded by JS truthiness of the value and a strict comparison), final
clamp `Math.min(1.8, Math.max(1.2, multiplier))`. -/
def getHeuristicRiskMultiplier (ctx : AgentContext) : ℚ :=
  let multiplier : ℚ := 1.5
  let multiplier :=
    if ctx.indicator.map (fun i => i.regime) = some Regime.Bullish then multiplier + 0.15
    else if ctx.indicator.map (fun i => i.regime) = some Regime.Bearish then multiplier - 0.15
    else multiplier
  let multiplier :=
    if ctx.trend.map (fun t => t.trend) = some Trend.Uptrend then multiplier + 0.1
    else if ctx.trend.map (fun t => t.trend) = some Trend.Downtrend then multiplier - 0.1
    else multiplier
  let multiplier :=
    if ctx.pattern.map (fun p => p.pattern) = some Pattern.BullishEngulfing then multiplier + 0.05
    else if ctx.pattern.map (fun p => p.pattern) = some Pattern.BearishEngulfing then multiplier - 0.05
    else multiplier
  let conf := ctx.indicator.bind (fun i => i.confidence)
  let multiplier := if jsTruthy conf && optGT conf 0.7 then multiplier + 0.05 else multiplier
  let multiplier :=
    match ctx.trend with
    | some t =>
      if jsTruthy t.strength && optGT t.strength 0.6 then
        if t.trend = Trend.Uptrend then multiplier + 0.05 else multiplier - 0.05
      else multiplier
    | none => multiplier
  min 1.8 (max 1.2 multiplier)

/-- `Math.round` on an exact value: floor of `x + 1/2` (ties toward +∞). -/
def jsRound (x : ℚ) : ℚ := ((Int.floor (x + 1/2) : Int) : ℚ)

/-- Observable outcome of the external text-generation call made by
`getLLMRiskMultiplier`: either the HTTP round-trip throws, or it returns a
reply whose raw text parses (via `Number.parseFloat`) to `parsed`
(`none` = NaN, i.e. unparseable). -/
inductive LLMOutcome where
  | netError (msg : String)
  | response (raw : String) (parsed : Option ℚ)
deriving DecidableEq, Repr

/-- `getLLMRiskMultiplier` from src/agents/RiskAgent.ts, over the observable
outcome of the external call: accepts the parsed reply iff it is a number in
`[1.2, 1.8]`, returning `Math.round(parsed*100)/100`; otherwise it throws
(`Except.error` carries the `String(err)` rendering of the thrown value). -/
def getLLMRiskMultiplier (o : LLMOutcome) : Except String ℚ :=
  match o with
  | LLMOutcome.netError msg => Except.error msg
  | LLMOutcome.response raw parsed =>
    match parsed with
    | some p =>
      if 1.2 ≤ p ∧ p ≤ 1.8 then Except.ok (jsRound (p * 100) / 100)
      else Except.error ("Error: Invalid LLM response: " ++ raw)
    | none => Except.error ("Error: Invalid LLM response: " ++ raw)

/-- `RiskAgent` from src/agents/RiskAgent.ts: fixed `rho = 0.0005`; the
multiplier comes from the LLM when `useLLM` (set from the presence of the
OPENAI_API_KEY credential), falling back to the heuristic on any failure;
`takeProfit = rMultiplier * rho`. -/
def RiskAgent (useLLM : Bool) (llm : LLMOutcome) (ctx : AgentContext) : RiskOut :=
  let rho : ℚ := 0.0005
  let sel : ℚ × String :=
    if useLLM then
      match getLLMRiskMultiplier llm with
      | Except.ok r => (r, "LLM-selected risk multiplier based on market analysis.")
      | Except.error err =>
        (getHeuristicRiskMultiplier ctx, "LLM fallback to heuristic: " ++ err.take 50 ++ "...")
    else
      (getHeuristicRiskMultiplier ctx, "Heuristic risk selection based on market context.")
  { rho := rho, rMultiplier := sel.1, takeProfit := sel.1 * rho, commentary := sel.2 }

/-- Left-pads a string with a character up to the given length. -/
def padLeft (s : String) (c : Char) (n : Nat) : String :=
  String.mk (List.replicate (n - s.length) c) ++ s

/-- Two-digit zero-padded rendering of a natural number. -/
def pad2 (n : Nat) : String := padLeft (toString n) '0' 2

/-- `Number.prototype.toFixed(d)` on an exact value: the sign is taken
first, then the magnitude is rounded to `d` decimals with ties away from
zero, per the ECMAScript algorithm. -/
def jsToFixed (x : ℚ) (d : Nat) : String :=
  let s := if x < 0 then "-" else ""
  let n := (Int.floor (|x| * 10 ^ d + 1/2)).toNat
  let ip := n / 10 ^ d
  let fp := n % 10 ^ d
  if d = 0 then s ++ toString ip
  else s ++ toString ip ++ "." ++ padLeft (toString fp) '0' d

/-- `toFixed` lifted to a possibly-NaN value: NaN renders as "NaN". -/
def jsToFixedOpt (x : Option ℚ) (d : Nat) : String :=
  match x with
  | some v => jsToFixed v d
  | none => "NaN"

/-- Proleptic-Gregorian civil date from days since 1970-01-01
(the standard days-from-civil inverse, as used by date libraries). -/
def civilFromDays (z0 : Int) : Int × Nat × Nat :=
  let z := z0 + 719468
  let era := z.fdiv 146097
  let doe := (z - era * 146097).toNat
  let yoe := (doe - doe / 1460 + doe / 36524 - doe / 146096) / 365
  let y : Int := (yoe : Int) + era * 400
  let doy := doe - (365 * yoe + yoe / 4 - yoe / 100)
  let mp := (5 * doy + 2) / 153
  let d := doy - (153 * mp + 2) / 5 + 1
  let m := if mp < 10 then mp + 3 else mp - 9
  (if m ≤ 2 then y + 1 else y, m, d)

/-- Digits of the ISO-8601 instant at an in-range count of milliseconds
(expanded years beyond four digits are rendered without the ECMAScript
sign prefix; no claim depends on the digits). -/
def isoRender (ms : Int) : String :=
  let days := ms.fdiv 86400000
  let msod := (ms.emod 86400000).toNat
  let ymd := civilFromDays days
  let y := ymd.1
  let m := ymd.2.1
  let d := ymd.2.2
  let sod := msod / 1000
  let ys := (if y < 0 then "-" else "") ++ padLeft (toString y.natAbs) '0' 4
  ys ++ "-" ++ pad2 m ++ "-" ++ pad2 d ++ "T" ++ pad2 (sod / 3600) ++ ":" ++
    pad2 (sod % 3600 / 60) ++ ":" ++ pad2 (sod % 60) ++ "." ++
    padLeft (toString (msod % 1000)) '0' 3 ++ "Z"

/-- `new Date(ms).toISOString()` for an exact integer count of
milliseconds.  ECMAScript clips the time value: a Date is valid only when
|ms| ≤ 8.64e15, and `toISOString` on an Invalid Date throws
`RangeError: Invalid time value` — modelled as `none`. -/
def dateToISOString (ms : Int) : Option String :=
  if ms.natAbs ≤ 8640000000000000 then some (isoRender ms) else none

/-- Rendering of a regime label, as interpolated into the narrative. -/
def Regime.toStr : Regime → String
  | Regime.Bullish => "Bullish"
  | Regime.Bearish => "Bearish"
  | Regime.Neutral => "Neutral"

/-- Rendering of a pattern label, as interpolated into the narrative. -/
def Pattern.toStr : Pattern → String
  | Pattern.BullishEngulfing => "BullishEngulfing"
  | Pattern.BearishEngulfing => "BearishEngulfing"
  | Pattern.Doji => "Doji"
  | Pattern.None => "None"

/-- Rendering of a trend label, as interpolated into the narrative. -/
def Trend.toStr : Trend → String
  | Trend.Uptrend => "Uptrend"
  | Trend.Downtrend => "Downtrend"
  | Trend.Sideways => "Sideways"

/-- `generateNarrative` from src/orchestrator.ts: the defensive completeness
check, then the empty-candle check (`ctx.candles.at(-1)`), then one line per
stage joined by newlines.  The timestamp line calls
`new Date(last.time * 1000).toISOString()`, which throws for an
out-of-range time value; that `RangeError` propagates (`none`). -/
def generateNarrative (ctx : AgentContext) : Option String :=
  match ctx.indicator, ctx.pattern, ctx.trend, ctx.risk with
  | some ind, some pat, some tr, some rk =>
    match ctx.candles.getLast? with
    | none => some "No candle data available"
    | some lastC =>
      match dateToISOString (lastC.time * 1000) with
      | none => none
      | some iso =>
        let dirEmoji :=
          if ind.regime = Regime.Bullish then "📈"
          else if ind.regime = Regime.Bearish then "📉"
          else "➖"
        let timestamp := "Time: " ++ iso
        let indicatorLine :=
          dirEmoji ++ " Indicator: RSI=" ++ jsToFixedOpt ind.rsi 1 ++ " (" ++
          ind.regime.toStr ++ (if ind.overbought then ", Overbought" else "") ++
          (if ind.oversold then ", Oversold" else "") ++ "); confidence=" ++
          jsToFixedOpt ind.confidence 2
        let patternLine :=
          "🕯️ Pattern: " ++ pat.pattern.toStr ++ " (strength=" ++
          jsToFixed pat.strength 2 ++ ")"
        let trendLine :=
          "📊 Trend: " ++ tr.trend.toStr ++ " (EMA12=" ++ jsToFixedOpt tr.emaFast 5 ++
          ", EMA26=" ++ jsToFixedOpt tr.emaSlow 5 ++ ", strength=" ++
          jsToFixedOpt tr.strength 2 ++ ")"
        let riskLine :=
          "🛡️ Risk: ρ=" ++ jsToFixed rk.rho 5 ++ ", r=" ++ jsToFixed rk.rMultiplier 2 ++
          " ⇒ take-profit R=" ++ jsToFixed rk.takeProfit 5 ++ " (" ++ rk.commentary ++ ")"
        some (String.intercalate "\n"
          [timestamp, indicatorLine, patternLine, trendLine, riskLine])
  | _, _, _, _ => some "Incomplete analysis - missing agent outputs"

/-- `runPipeline` from src/orchestrator.ts: runs the four agents in fixed
order, threading the context, then renders the narrative.  The environment
of the Risk stage (credential presence and external-call outcome) is passed
explicitly.  A `RangeError` thrown while rendering the narrative
propagates out of `runPipeline` (`none`); otherwise the context and the
narrative are returned. -/
def runPipeline (useLLM : Bool) (llm : LLMOutcome) (candles : List Candle) :
    Option (AgentContext × String) :=
  let ctx : AgentContext := { candles := candles }
  let ctx := { ctx with indicator := some (IndicatorAgent ctx) }
  let ctx := { ctx with pattern := some (PatternAgent ctx) }
  let ctx := { ctx with trend := some (TrendAgent ctx) }
  let ctx := { ctx with risk := some (RiskAgent useLLM llm ctx) }
  (generateNarrative ctx).map (fun narrative => (ctx, narrative))

/-- The heuristic multiplier exactly as the specification paragraph words
it: base 1.5, plus 0.15 / minus 0.15 for Bullish/Bearish regime, plus 0.1 /
minus 0.1 for Uptrend/Downtrend, plus 0.05 / minus 0.05 for
Bullish/BearishEngulfing, plus 0.05 if regime confidence exceeds 0.7, and,
when trend strength exceeds 0.6, plus-or-minus 0.05 with the sign matching
the trend direction — a Sideways trend names no direction, so no
trend-strength term applies to it; final result clamped to [1.2, 1.8].
Comparisons against a NaN confidence or strength are false. -/
def heuristicMultiplierSpec (i : IndicatorOut) (p : PatternOut) (t : TrendOut) : ℚ :=
  let regimeTerm : ℚ :=
    match i.regime with
    | Regime.Bullish => 0.15
    | Regime.Bearish => -0.15
    | Regime.Neutral => 0
  let trendTerm : ℚ :=
    match t.trend with
    | Trend.Uptrend => 0.1
    | Trend.Downtrend => -0.1
    | Trend.Sideways => 0
  let patternTerm : ℚ :=
    match p.pattern with
    | Pattern.BullishEngulfing => 0.05
    | Pattern.BearishEngulfing => -0.05
    | _ => 0
  let confTerm : ℚ :=
    match i.confidence with
    | some c => if 0.7 < c then 0.05 else 0
    | none => 0
  let strengthTerm : ℚ :=
    match t.strength with
    | some st =>
      if 0.6 < st then
        match t.trend with
        | Trend.Uptrend => 0.05
        | Trend.Downtrend => -0.05
        | Trend.Sideways => 0
      else 0
    | none => 0
  min 1.8 (max 1.2 (1.5 + regimeTerm + trendTerm + patternTerm + confTerm + strengthTerm))

/-- The heuristic multiplier formula amended to match the code's else
branch: when trend strength exceeds 0.6, the adjustment is +0.05 for an
Uptrend and −0.05 otherwise, i.e. for Downtrend AND Sideways alike. -/
def heuristicMultiplierAmended (i : IndicatorOut) (p : PatternOut) (t : TrendOut) : ℚ :=
  let regimeTerm : ℚ :=
    match i.regime with
    | Regime.Bullish => 0.15
    | Regime.Bearish => -0.15
    | Regime.Neutral => 0
  let trendTerm : ℚ :=
    match t.trend with
    | Trend.Uptrend => 0.1
    | Trend.Downtrend => -0.1
    | Trend.Sideways => 0
  let patternTerm : ℚ :=
    match p.pattern with
    | Pattern.BullishEngulfing => 0.05
    | Pattern.BearishEngulfing => -0.05
    | _ => 0
  let confTerm : ℚ :=
    match i.confidence with
    | some c => if 0.7 < c then 0.05 else 0
    | none => 0
  let strengthTerm : ℚ :=
    match t.strength with
    | some st =>
      if 0.6 < st then (if t.trend = Trend.Uptrend then 0.05 else -0.05) else 0
    | none => 0
  min 1.8 (max 1.2 (1.5 + regimeTerm + trendTerm + patternTerm + confTerm + strengthTerm))

/-- A one-unit flat candle. -/
def unitCandle : Candle := { time := 0, «open» := 1, high := 1, low := 1, close := 1 }

/-- Fifteen flat candles: enough closes for RSI(14). -/
def unitCandles : List Candle := List.replicate 15 unitCandle

/-- Fifteen candles with strictly increasing closes 0, 1, ..., 14. -/
def incCandles : List Candle :=
  (List.range 15).map (fun i =>
    { time := (i : Int), «open» := (i : ℚ), high := (i : ℚ), low := (i : ℚ), close := (i : ℚ) })

/-- A candle with a negative close, a syntactically valid bar. -/
def negCandle : Candle := { time := 0, «open» := -1, high := -1, low := -1, close := -1 }

/-- A bullish previous bar with a small body (body 0.05 at price 100). -/
def dojiPrev : Candle := { time := 0, «open» := 100, high := 101, low := 99, close := 100.05 }

/-- A bearish last bar whose body (0.07) is below 0.1% of its close and
whose body range [99.99, 100.06] contains the previous body [100, 100.05]. -/
def dojiLast : Candle := { time := 1, «open» := 100.06, high := 101, low := 99, close := 99.99 }

/-- Indicator output with everything neutral and NaN confidence. -/
def cexIndicator : IndicatorOut :=
  { rsi := none, regime := Regime.Neutral, overbought := false,
    oversold := false, confidence := none }

/-- Pattern output with no pattern. -/
def cexPattern : PatternOut := { pattern := Pattern.None, strength := 0 }

/-- Trend output that is Sideways yet has strength 0.7 (such an output can
be handed to the exported standalone risk entry point). -/
def cexTrend : TrendOut :=
  { trend := Trend.Sideways, emaFast := none, emaSlow := none, slope := 0,
    strength := some 0.7 }

/-- Context carrying the three outputs above to the heuristic. -/
def cexCtx : AgentContext :=
  { candles := [], indicator := some cexIndicator, pattern := some cexPattern,
    trend := some cexTrend, risk := none }

/-- A syntactically valid bar whose integer epoch-seconds time, 10^13, puts
the Date at 10^16 milliseconds — beyond the 8.64e15 ECMAScript range. -/
def bigTimeCandle : Candle :=
  { time := 10000000000000, «open» := 1, high := 1, low := 1, close := 1 }

/-- The heuristic's final clamp keeps its value inside [1.2, 1.8]. -/
theorem getHeuristicRiskMultiplier_range (ctx : AgentContext) :
    1.2 ≤ getHeuristicRiskMultiplier ctx ∧ getHeuristicRiskMultiplier ctx ≤ 1.8 := by
  unfold getHeuristicRiskMultiplier
  refine ⟨le_min (by norm_num) (le_max_left _ _), min_le_left _ _⟩

/-- A successful LLM selection is inside [1.2, 1.8]: the parsed value is
range-checked before rounding, and rounding to 2 decimals is monotone with
integer endpoints 1.20 and 1.80. -/
theorem getLLMRiskMultiplier_range (o : LLMOutcome) (r : ℚ)
    (h : getLLMRiskMultiplier o = Except.ok r) : 1.2 ≤ r ∧ r ≤ 1.8 := by
  cases o with
  | netError msg => exact absurd h (by simp [getLLMRiskMultiplier])
  | response raw parsed =>
    cases parsed with
    | none => exact absurd h (by simp [getLLMRiskMultiplier])
    | some p =>
      by_cases hp : (1.2 : ℚ) ≤ p ∧ p ≤ 1.8
      · rw [getLLMRiskMultiplier, if_pos hp] at h
        obtain ⟨hp1, hp2⟩ := hp
        have hr : r = jsRound (p * 100) / 100 := by
          cases h; rfl
        have hlow : (120 : Int) ≤ Int.floor (p * 100 + 1/2) :=
          Int.le_floor.mpr (by push_cast; linarith)
        have hhigh : Int.floor (p * 100 + 1/2) < 181 :=
          Int.floor_lt.mpr (by push_cast; linarith)
        have hlowQ : (120 : ℚ) ≤ ((Int.floor (p * 100 + 1/2) : Int) : ℚ) := by
          exact_mod_cast hlow
        have hhighQ : ((Int.floor (p * 100 + 1/2) : Int) : ℚ) ≤ 180 := by
          have : Int.floor (p * 100 + 1/2) ≤ 180 := by omega
          exact_mod_cast this
        rw [hr]
        unfold jsRound
        constructor <;> [linarith; linarith]
      · rw [getLLMRiskMultiplier, if_neg hp] at h
        exact absurd h (by simp)

/-- C1: for every Risk Output produced by the Risk Stage — whichever
strategy selected the multiplier (heuristic when no credential, the
external advisory on success, or the heuristic fallback after an advisory
failure) — `rMultiplier` lies in the closed interval [1.2, 1.8]. -/
theorem riskAgent_rMultiplier_range (useLLM : Bool) (llm : LLMOutcome) (ctx : AgentContext) :
    1.2 ≤ (RiskAgent useLLM llm ctx).rMultiplier ∧
    (RiskAgent useLLM llm ctx).rMultiplier ≤ 1.8 := by
  cases useLLM with
  | false => simpa [RiskAgent] using getHeuristicRiskMultiplier_range ctx
  | true =>
    cases hE : getLLMRiskMultiplier llm with
    | ok r =>
      simpa [RiskAgent, hE] using getLLMRiskMultiplier_range llm r hE
    | error e =>
      simpa [RiskAgent, hE] using getHeuristicRiskMultiplier_range ctx

/-- C2: every Risk Output has the fixed `rho = 0.0005` and satisfies
`takeProfit = rMultiplier * 0.0005` exactly, on every strategy path. -/
theorem riskAgent_rho_takeProfit (useLLM : Bool) (llm : LLMOutcome) (ctx : AgentContext) :
    (RiskAgent useLLM llm ctx).rho = 0.0005 ∧
    (RiskAgent useLLM llm ctx).takeProfit =
      (RiskAgent useLLM llm ctx).rMultiplier * 0.0005 := by
  exact ⟨rfl, rfl⟩

/-- On a context whose four stage outputs are present, the narrative
renders successfully whenever the last bar's time (in milliseconds) is
inside the Date range; the empty-candle and in-range branches both return
a string. -/
theorem generateNarrative_some (cs : List Candle) (i : IndicatorOut)
    (p : PatternOut) (t : TrendOut) (r : RiskOut)
    (hrange : ∀ c : Candle, cs.getLast? = some c →
      (c.time * 1000).natAbs ≤ 8640000000000000) :
    ∃ n, generateNarrative
      { candles := cs, indicator := some i, pattern := some p,
        trend := some t, risk := some r } = some n := by
  rcases hL : cs.getLast? with _ | c
  · refine ⟨"No candle data available", ?_⟩
    simp only [generateNarrative, hL]
  · simp only [generateNarrative, hL]
    rw [dateToISOString, if_pos (hrange c hL)]
    exact ⟨_, rfl⟩

/-- C4 fails as stated: on the syntactically valid one-bar sequence whose
time is 10^13 epoch-seconds, the source's generateNarrative reaches
`new Date(10^16).toISOString()`, an Invalid Date whose rendering throws
RangeError, so `runPipeline` throws rather than returning a result
(modelled: the pipeline yields `none`). -/
theorem runPipeline_throw_cex :
    runPipeline false (LLMOutcome.netError "network error") [bigTimeCandle] = none := by
  rfl

/-- C4 amended: for every bar sequence that is empty or whose last bar's
time stays within the Date range (|time × 1000| ≤ 8.64e15 ms),
`runPipeline` completes without throwing and returns a complete,
well-typed result — all four stage outputs populated and the input candles
preserved; on the empty bar sequence the narrative is the fixed
"No candle data available" message. -/
theorem runPipeline_complete_amended (useLLM : Bool) (llm : LLMOutcome) :
    (∀ cs : List Candle,
      (∀ c : Candle, cs.getLast? = some c →
        (c.time * 1000).natAbs ≤ 8640000000000000) →
      ∃ ctx narrative, runPipeline useLLM llm cs = some (ctx, narrative) ∧
        ctx.indicator.isSome ∧ ctx.pattern.isSome ∧
        ctx.trend.isSome ∧ ctx.risk.isSome ∧ ctx.candles = cs) ∧
    (runPipeline useLLM llm []).map (fun res => res.2) =
      some "No candle data available" := by
  constructor
  · intro cs hrange
    simp only [runPipeline]
    obtain ⟨n, hn⟩ := generateNarrative_some cs _ _ _ _ hrange
    rw [hn]
    exact ⟨_, n, rfl, rfl, rfl, rfl, rfl, rfl⟩
  · rfl

/-- Concrete instance for the amended C4: a single bar at time 0 is inside
the Date range, so the pipeline returns a complete result. -/
theorem runPipeline_complete_amended_witness :
    ∃ ctx narrative,
      runPipeline false (LLMOutcome.netError "network error") [unitCandle] =
        some (ctx, narrative) ∧
      ctx.indicator.isSome ∧ ctx.pattern.isSome ∧
      ctx.trend.isSome ∧ ctx.risk.isSome ∧ ctx.candles = [unitCandle] :=
  (runPipeline_complete_amended false (LLMOutcome.netError "network error")).1
    [unitCandle]
    (by
      intro c hc
      obtain rfl : unitCandle = c := Option.some.inj hc
      decide)

/-- Consecutive deltas of a strictly increasing list are positive. -/
theorem zipWith_sub_pos (l : List ℚ) (hp : l.Pairwise (· < ·)) :
    ∀ x ∈ List.zipWith (fun b a => b - a) l.tail l, 0 < x := by
  induction l with
  | nil => intro x hx; simp at hx
  | cons a l ih =>
    intro x hx
    cases l with
    | nil => simp at hx
    | cons b t =>
      rw [List.pairwise_cons] at hp
      obtain ⟨hab, hbt⟩ := hp
      simp only [List.tail_cons, List.zipWith_cons_cons] at hx
      rcases List.mem_cons.mp hx with h1 | h2
      · have : a < b := hab b (by simp)
        rw [h1]; linarith
      · exact ih hbt x (by simpa using h2)

/-- On at least 15 strictly increasing closes every delta in the RSI window
is a gain, so the summed losses vanish and the `avgLoss == 0` rule fires. -/
theorem rsi_increasing (closes : List ℚ) (hlen : 15 ≤ closes.length)
    (hinc : closes.Pairwise (· < ·)) : rsi closes 14 = some 100 := by
  have h15 : ¬ closes.length < 14 + 1 := by omega
  rw [rsi, if_neg h15]
  have hwp : (closes.drop (closes.length - (14 + 1))).Pairwise (· < ·) :=
    hinc.sublist (List.drop_sublist _ _)
  have hsum :
      ((List.zipWith (fun b a => b - a)
          (closes.drop (closes.length - (14 + 1))).tail
          (closes.drop (closes.length - (14 + 1)))).map
        (fun c => if 0 ≤ c then 0 else -c)).sum = 0 := by
    apply List.sum_eq_zero
    intro x hx
    obtain ⟨c, hc, rfl⟩ := List.mem_map.mp hx
    exact if_pos (zipWith_sub_pos _ hwp c hc).le
  simp only [hsum, zero_div, if_pos]

/-- C5: on any context whose bar sequence has at least 15 bars with
strictly increasing closes, the Regime Stage reports RSI = 100, a Bullish
regime, and the overbought flag. -/
theorem indicator_increasing_bullish (ctx : AgentContext)
    (hlen : 15 ≤ ctx.candles.length)
    (hinc : (ctx.candles.map (fun c => c.close)).Pairwise (· < ·)) :
    (IndicatorAgent ctx).rsi = some 100 ∧
    (IndicatorAgent ctx).regime = Regime.Bullish ∧
    (IndicatorAgent ctx).overbought = true := by
  have h100 : rsi (ctx.candles.map (fun c => c.close)) 14 = some 100 :=
    rsi_increasing _ (by simpa using hlen) hinc
  refine ⟨?_, ?_, ?_⟩ <;>
    simp [IndicatorAgent, h100, optGE] <;> norm_num

/-- Concrete instance for C5: fifteen bars with closes 0, 1, ..., 14. -/
theorem indicator_increasing_bullish_witness :
    (IndicatorAgent (mkCtx incCandles)).rsi = some 100 ∧
    (IndicatorAgent (mkCtx incCandles)).regime = Regime.Bullish ∧
    (IndicatorAgent (mkCtx incCandles)).overbought = true :=
  indicator_increasing_bullish (mkCtx incCandles) (by decide) (by decide)

/-- C6: with fewer than 15 bars the Regime Stage returns a NaN RSI (`none`),
a Neutral regime, cleared overbought/oversold flags, and NaN confidence:
every comparison against the NaN RSI evaluates false. -/
theorem indicator_short_input (ctx : AgentContext) (h : ctx.candles.length < 15) :
    IndicatorAgent ctx =
      { rsi := none, regime := Regime.Neutral, overbought := false,
        oversold := false, confidence := none } := by
  have hn : rsi (ctx.candles.map (fun c => c.close)) 14 = none := by
    rw [rsi, if_pos (by simpa using h)]
  simp [IndicatorAgent, hn, optGE, optLE]

/-- Concrete instance for C6: the empty bar sequence. -/
theorem indicator_short_input_witness :
    IndicatorAgent (mkCtx []) =
      { rsi := none, regime := Regime.Neutral, overbought := false,
        oversold := false, confidence := none } :=
  indicator_short_input (mkCtx []) (by decide)

/-- C7: on any bar sequence of length at least two (written as
`pre ++ [prevC, lastC]`) whose last bar's body is at most 0.1% of its
close, the Pattern Stage returns Doji with the fixed strength 0.4 — the
Doji check runs before the engulfing checks, so this holds even when the
bars also satisfy the engulfing geometry with opposite colors. -/
theorem pattern_doji_precedence (ctx : AgentContext) (pre : List Candle)
    (prevC lastC : Candle) (hcs : ctx.candles = pre ++ [prevC, lastC])
    (hdoji : |lastC.close - lastC.«open»| ≤ 0.001 * lastC.close) :
    PatternAgent ctx = { pattern := Pattern.Doji, strength := 0.4 } := by
  unfold PatternAgent
  rw [hcs]
  simp only [List.reverse_append, List.reverse_cons, List.reverse_nil,
    List.nil_append, List.cons_append]
  rw [if_pos hdoji]

/-- Concrete instance for C7: a bearish last bar with a tiny body whose
body range contains the previous bullish bar's body range, so the
engulfing geometry and opposite colors also hold — yet the answer is Doji. -/
theorem pattern_doji_precedence_witness :
    (dojiLast.close < dojiLast.«open» ∧ dojiPrev.«open» < dojiPrev.close ∧
     min dojiLast.«open» dojiLast.close ≤ min dojiPrev.«open» dojiPrev.close ∧
     max dojiPrev.«open» dojiPrev.close ≤ max dojiLast.«open» dojiLast.close) ∧
    PatternAgent (mkCtx [dojiPrev, dojiLast]) =
      { pattern := Pattern.Doji, strength := 0.4 } :=
  ⟨by norm_num [dojiPrev, dojiLast, min_def, max_def],
   pattern_doji_precedence (mkCtx [dojiPrev, dojiLast]) [] dojiPrev dojiLast rfl
     (by rw [abs_le]; constructor <;> norm_num [dojiLast])⟩

/-- C8 fails as stated: on the single syntactically valid bar with close −1
both EMAs are −1, the ratio emaFast/emaSlow is exactly 1 (inside
[0.999, 1.001]), yet the code classifies Uptrend, because with a negative
emaSlow the inequality `emaFast > emaSlow * 1.001` holds. -/
theorem trend_sideways_band_cex :
    (TrendAgent (mkCtx [negCandle])).emaFast = some (-1) ∧
    (TrendAgent (mkCtx [negCandle])).emaSlow = some (-1) ∧
    (0.999 : ℚ) ≤ (-1 : ℚ) / (-1 : ℚ) ∧ ((-1 : ℚ) / (-1 : ℚ)) ≤ 1.001 ∧
    (TrendAgent (mkCtx [negCandle])).trend = Trend.Uptrend ∧
    (TrendAgent (mkCtx [negCandle])).trend ≠ Trend.Sideways := by
  have htrend : (TrendAgent (mkCtx [negCandle])).trend = Trend.Uptrend := by
    simp only [TrendAgent, mkCtx, negCandle, List.map_cons, List.map_nil]
    norm_num [ema]
    intro h
    simp only [optGTmul, decide_eq_false_iff_not] at h
    exact absurd (by norm_num : ((-1 : ℚ)) * (1001 / 1000) < -1) h
  refine ⟨rfl, rfl, by norm_num, by norm_num, htrend, ?_⟩
  rw [htrend]
  simp

/-- C8 amended: whenever the slow EMA is positive and the ratio
emaFast/emaSlow lies within [0.999, 1.001], the Trend Stage returns
Sideways. -/
theorem trend_sideways_band_pos (ctx : AgentContext) (f s : ℚ)
    (hf : (TrendAgent ctx).emaFast = some f)
    (hs : (TrendAgent ctx).emaSlow = some s)
    (hspos : 0 < s) (h1 : 0.999 ≤ f / s) (h2 : f / s ≤ 1.001) :
    (TrendAgent ctx).trend = Trend.Sideways := by
  have hle : f ≤ s * 1.001 := by
    have := (div_le_iff₀ hspos).mp h2
    linarith
  have hge : s * 0.999 ≤ f := by
    have := (le_div_iff₀ hspos).mp h1
    linarith
  simp only [TrendAgent] at hf hs ⊢
  rw [hf, hs]
  have hgt : optGTmul (some f) (some s) 1.001 = false := by
    simp only [optGTmul, decide_eq_false_iff_not]
    exact not_lt.mpr hle
  have hlt : optLTmul (some f) (some s) 0.999 = false := by
    simp only [optLTmul, decide_eq_false_iff_not]
    exact not_lt.mpr hge
  simp [hgt, hlt]

/-- Concrete instance for the amended C8: one flat candle at price 1 gives
equal positive EMAs, ratio exactly 1, and a Sideways classification. -/
theorem trend_sideways_band_pos_witness :
    (TrendAgent (mkCtx [unitCandle])).trend = Trend.Sideways :=
  trend_sideways_band_pos (mkCtx [unitCandle]) 1 1 rfl rfl (by norm_num)
    (by norm_num) (by norm_num)

/-- C9 fails as stated: on the empty bar sequence the Regime Stage's
confidence and the Trend Stage's strength are NaN (`none`), which is not a
value inside [0, 1]. -/
theorem stage_bounds_cex :
    (IndicatorAgent (mkCtx [])).confidence = none ∧
    (TrendAgent (mkCtx [])).strength = none ∧
    (¬ ∃ q : ℚ, (IndicatorAgent (mkCtx [])).confidence = some q ∧ 0 ≤ q ∧ q ≤ 1) ∧
    (¬ ∃ q : ℚ, (TrendAgent (mkCtx [])).strength = some q ∧ 0 ≤ q ∧ q ≤ 1) := by
  refine ⟨rfl, rfl, ?_, ?_⟩ <;>
    · rintro ⟨q, hq, -, -⟩
      exact Option.noConfusion (show (none : Option ℚ) = some q from hq)

/-- C9 amended: the Pattern Stage's strength always lies in [0, 1], and the
Regime Stage's confidence and the Trend Stage's strength lie in [0, 1]
whenever they are actual numbers (they are NaN exactly when the input is
too short: fewer than 15 closes, respectively no candles at all). -/
theorem stage_bounds_amended (ctx : AgentContext) :
    (0 ≤ (PatternAgent ctx).strength ∧ (PatternAgent ctx).strength ≤ 1) ∧
    (∀ q : ℚ, (IndicatorAgent ctx).confidence = some q → 0 ≤ q ∧ q ≤ 1) ∧
    (∀ q : ℚ, (TrendAgent ctx).strength = some q → 0 ≤ q ∧ q ≤ 1) := by
  refine ⟨?_, ?_, ?_⟩
  · unfold PatternAgent
    rcases ctx.candles.reverse with _ | ⟨lastC, _ | ⟨prevC, rest⟩⟩
    · simp
    · simp
    · simp only []
      by_cases hd : |lastC.close - lastC.«open»| ≤ 0.001 * lastC.close
      · rw [if_pos hd]; norm_num
      · rw [if_neg hd]
        have hdiv : (0 : ℚ) ≤
            |lastC.close - lastC.«open»| / (|prevC.close - prevC.«open»| + 1e-9) :=
          div_nonneg (abs_nonneg _) (by positivity)
        split_ifs <;>
          simp only [] <;>
          refine ⟨?_, ?_⟩ <;>
          first
          | exact le_min (by norm_num) hdiv
          | exact min_le_left _ _
          | norm_num
  · intro q hq
    unfold IndicatorAgent at hq
    simp only [Option.map_eq_some'] at hq
    obtain ⟨r, -, rfl⟩ := hq
    constructor
    · exact le_min (by norm_num) (div_nonneg (abs_nonneg _) (by norm_num))
    · exact min_le_left _ _
  · intro q hq
    unfold TrendAgent at hq
    rcases hF : ema ((ctx.candles.map fun c => c.close).drop
        ((ctx.candles.map fun c => c.close).length - max 26 12)) 12 with _ | f <;>
      rcases hS : ema ((ctx.candles.map fun c => c.close).drop
        ((ctx.candles.map fun c => c.close).length - max 26 12)) 26 with _ | s <;>
      simp only [hF, hS] at hq
    · exact Option.noConfusion hq
    · exact Option.noConfusion hq
    · exact Option.noConfusion hq
    · obtain rfl : min 1 (|(f - s) / max s (1e-9 : ℚ)| * 10) = q :=
        Option.some.inj hq
      constructor
      · exact le_min (by norm_num) (mul_nonneg (abs_nonneg _) (by norm_num))
      · exact min_le_left _ _

/-- Concrete instance for the amended C9: the pattern strength of one flat
candle, the confidence on fifteen increasing closes (an actual number,
min(1, 50/30)), and the trend strength of one flat candle (an actual
number) are all inside [0, 1]. -/
theorem stage_bounds_amended_witness :
    (0 ≤ (PatternAgent (mkCtx [unitCandle])).strength ∧
     (PatternAgent (mkCtx [unitCandle])).strength ≤ 1) ∧
    (0 ≤ min (1 : ℚ) (|(100 : ℚ) - 50| / 30) ∧
     min (1 : ℚ) (|(100 : ℚ) - 50| / 30) ≤ 1) ∧
    (0 ≤ min (1 : ℚ) (|((1 : ℚ) - 1) / max (1 : ℚ) (1e-9 : ℚ)| * 10) ∧
     min (1 : ℚ) (|((1 : ℚ) - 1) / max (1 : ℚ) (1e-9 : ℚ)| * 10) ≤ 1) :=
  ⟨(stage_bounds_amended (mkCtx [unitCandle])).1,
   (stage_bounds_amended (mkCtx incCandles)).2.1 _ (by
      have h100 : rsi ((mkCtx incCandles).candles.map (fun c => c.close)) 14 = some 100 :=
        rsi_increasing _ (by decide) (by decide)
      simp [IndicatorAgent, h100]),
   (stage_bounds_amended (mkCtx [unitCandle])).2.2 _ rfl⟩

/-- C10: whenever the Trend Stage classifies Sideways, the strength it
returns is either NaN or at most 0.01, so the condition guarding the Risk
heuristic's trend-strength adjustment (truthiness and `> 0.6`) is false:
the heuristic never applies its −0.05 trend-strength branch to a Sideways
trend produced by the pipeline. -/
theorem sideways_strength_small (ctx : AgentContext)
    (h : (TrendAgent ctx).trend = Trend.Sideways) :
    (∀ q : ℚ, (TrendAgent ctx).strength = some q → q ≤ 0.01) ∧
    (jsTruthy (TrendAgent ctx).strength && optGT (TrendAgent ctx).strength 0.6) = false := by
  unfold TrendAgent at h ⊢
  rcases hF : ema ((ctx.candles.map fun c => c.close).drop
      ((ctx.candles.map fun c => c.close).length - max 26 12)) 12 with _ | f <;>
    rcases hS : ema ((ctx.candles.map fun c => c.close).drop
      ((ctx.candles.map fun c => c.close).length - max 26 12)) 26 with _ | s <;>
    simp only [hF, hS] at h ⊢
  · exact ⟨fun q hq => absurd hq (by simp), rfl⟩
  · exact ⟨fun q hq => absurd hq (by simp), rfl⟩
  · exact ⟨fun q hq => absurd hq (by simp), rfl⟩
  · -- both EMAs are numbers; the Sideways classification bounds f by s
    by_cases hgt : s * 1.001 < f
    · rw [if_pos (by simp [optGTmul, hgt])] at h
      exact absurd h (by simp)
    · by_cases hlt : f < s * 0.999
      · rw [if_neg (by simp [optGTmul, hgt]), if_pos (by simp [optLTmul, hlt])] at h
        exact absurd h (by simp)
      · have hle : f ≤ s * 1.001 := not_lt.mp hgt
        have hge : s * 0.999 ≤ f := not_lt.mp hlt
        have hs0 : 0 ≤ s := by nlinarith
        have hM : (0 : ℚ) < max s (1e-9 : ℚ) := lt_of_lt_of_le (by norm_num) (le_max_right _ _)
        have habs : |f - s| ≤ 0.001 * max s (1e-9 : ℚ) := by
          have h1 : |f - s| ≤ 0.001 * s := abs_le.mpr ⟨by linarith, by linarith⟩
          have h2 : s ≤ max s (1e-9 : ℚ) := le_max_left _ _
          linarith
        have hdiv : |(f - s) / max s (1e-9 : ℚ)| ≤ 0.001 := by
          rw [abs_div, abs_of_pos hM]
          rw [div_le_iff₀ hM]
          linarith
        have hq01 : min 1 (|(f - s) / max s (1e-9 : ℚ)| * 10) ≤ 0.01 := by
          have := min_le_right (1 : ℚ) (|(f - s) / max s (1e-9 : ℚ)| * 10)
          linarith
        refine ⟨?_, ?_⟩
        · intro q hq
          obtain rfl : min 1 (|(f - s) / max s (1e-9 : ℚ)| * 10) = q :=
            Option.some.inj hq
          exact hq01
        · have hngt : ¬ ((0.6 : ℚ) < min 1 (|(f - s) / max s (1e-9 : ℚ)| * 10)) := by
            intro hc; linarith
          simp [optGT, hngt]

/-- Concrete instance for C10: the empty bar sequence classifies Sideways
(NaN EMAs fail both comparisons) and the heuristic's trend-strength gate is
false there. -/
theorem sideways_strength_small_witness :
    (jsTruthy (TrendAgent (mkCtx [])).strength &&
      optGT (TrendAgent (mkCtx [])).strength 0.6) = false :=
  (sideways_strength_small (mkCtx []) rfl).2

/-- For a positive threshold, the JS truthiness guard in front of a strict
comparison is redundant: `x && x > b` agrees with `x > b`. -/
theorem jsTruthy_and_optGT (x : Option ℚ) (b : ℚ) (hb : 0 < b) :
    (jsTruthy x && optGT x b) = optGT x b := by
  cases x with
  | none => rfl
  | some v =>
    by_cases h : b < v
    · have hv : v ≠ 0 := by
        intro h0
        rw [h0] at h
        exact absurd h (by linarith)
      simp [jsTruthy, optGT, h, hv]
    · simp [jsTruthy, optGT, h]

/-- C3 fails as stated: handed a Sideways trend of strength 0.7 (with
everything else neutral), the code's heuristic subtracts 0.05 in its
trend-strength branch — the branch is not reserved for directional trends —
yielding 1.45, while the claimed formula (whose ±0.05 sign "matches the
trend direction") assigns no trend-strength term to Sideways and yields
1.5. -/
theorem heuristic_spec_formula_cex :
    getHeuristicRiskMultiplier cexCtx = 1.45 ∧
    heuristicMultiplierSpec cexIndicator cexPattern cexTrend = 1.5 ∧
    getHeuristicRiskMultiplier cexCtx ≠
      heuristicMultiplierSpec cexIndicator cexPattern cexTrend := by
  have h1 : getHeuristicRiskMultiplier cexCtx = 1.45 := by
    simp only [getHeuristicRiskMultiplier, cexCtx, cexIndicator, cexPattern, cexTrend]
    simp [jsTruthy, optGT]
    norm_num [min_def, max_def]
  have h2 : heuristicMultiplierSpec cexIndicator cexPattern cexTrend = 1.5 := by
    simp only [heuristicMultiplierSpec, cexIndicator, cexPattern, cexTrend]
    simp
    norm_num [min_def, max_def]
  refine ⟨h1, h2, ?_⟩
  rw [h1, h2]
  norm_num

set_option maxHeartbeats 8000000 in
/-- C3 amended: for every combination of Regime, Pattern and Trend outputs
handed to the heuristic strategy, the code's multiplier equals the claimed
sum-of-adjustments formula with the trend-strength term read as +0.05 for
Uptrend and −0.05 otherwise (Downtrend or Sideways), clamped to
[1.2, 1.8]. -/
theorem heuristic_amended_formula (cs : List Candle) (rk : Option RiskOut)
    (i : IndicatorOut) (p : PatternOut) (t : TrendOut) :
    getHeuristicRiskMultiplier
      { candles := cs, indicator := some i, pattern := some p,
        trend := some t, risk := rk } =
    heuristicMultiplierAmended i p t := by
  obtain ⟨irsi, ireg, iob, ios, iconf⟩ := i
  obtain ⟨pp, ps⟩ := p
  obtain ⟨tt, tf, ts, tsl, tstr⟩ := t
  simp only [getHeuristicRiskMultiplier, heuristicMultiplierAmended,
    jsTruthy_and_optGT _ _ (by norm_num : (0 : ℚ) < 0.7),
    jsTruthy_and_optGT _ _ (by norm_num : (0 : ℚ) < 0.6)]
  cases ireg <;> cases tt <;> cases pp <;>
    rcases iconf with _ | c <;> rcases tstr with _ | st <;>
      simp [optGT] <;> (try split_ifs) <;> norm_num
